import Mathlib

/-!
Verification of the SOCKS5 proxy in `src/main.rs` (socks-puppet).

Shallow embedding: the per-session protocol logic (`handle_client`,
`handle_connect`, `handle_bind`, `handle_udp`) is modelled as pure
functions over

* the client's input byte stream, a `List Nat` of bytes (each < 256 on
  real wires; reads mirror `read_exact`, failing when too few bytes
  remain);
* a `NetEnv` record fixing the outcome of the network operations the
  code performs (`TcpStream::connect`, the ephemeral ports returned by
  `TcpListener::bind` / `UdpSocket::bind` via `local_addr`, and whether
  `listener.accept()` yields a connection).

The observable result of a session is a `SessionOut`: the bytes the
protocol state machine writes to the client (`out`; the payload bytes
moved by the CONNECT relay are not part of the protocol stream and are
abstracted away), the number of relay copy tasks spawned
(`relays`: `thread::spawn(io::copy ...)` in `handle_connect` counts 2,
everything else 0), and the `Result<(), SocksError>` value (`res`).
Writes to the client (`write_all`) are modelled as always succeeding;
the claims under study all concern paths on which they do.
-/

/-- Mirrors the Rust `SocksError` enum. `IoError` carries an abstract
error code standing for the wrapped `io::Error`. -/
inductive SocksError where
  | IoError : Nat → SocksError
  | UnsupportedVersion : SocksError
  | UnsupportedAuthMethod : SocksError
  | UnsupportedCommand : SocksError
  | UnsupportedAddressType : SocksError
deriving DecidableEq, Repr

deriving instance DecidableEq for Except

/-- Error code standing for the `io::ErrorKind::UnexpectedEof` produced
by `read_exact` on a short stream. -/
def eofError : Nat := 0

/-- Outcomes of the network operations a session performs, fixed up
front: the embedding is deterministic given this environment. -/
structure NetEnv where
  /-- Outcome of `TcpStream::connect` in `handle_connect`: `.ok ()` or
  `.error e` with `e` the abstract code of the `io::Error`. -/
  connectResult : Except Nat Unit
  /-- Local port of the outbound socket created on a successful connect
  (`target.local_addr()`); the code never consults it. -/
  connectLocalPort : Nat
  /-- Ephemeral port of the `TcpListener` bound in `handle_bind`. -/
  bindPort : Nat
  /-- Whether `listener.accept()` in `handle_bind` returns `Ok`. -/
  acceptOk : Bool
  /-- Ephemeral port of the `UdpSocket` bound in `handle_udp`. -/
  udpPort : Nat
deriving DecidableEq, Repr

/-- Observable behaviour of one session (or one phase of it). -/
structure SessionOut where
  /-- Bytes written to the client by the protocol state machine. -/
  out : List Nat
  /-- Number of relay copy tasks spawned (`thread::spawn` in
  `handle_connect`). -/
  relays : Nat
  /-- The `Result<(), SocksError>` the handler returns. -/
  res : Except SocksError Unit
deriving DecidableEq, Repr

/-- `read_exact` into an `n`-byte buffer: consumes exactly `n` bytes,
or fails (UnexpectedEof) when fewer are available. -/
def readExact (n : Nat) (input : List Nat) : Option (List Nat × List Nat) :=
  if n ≤ input.length then some (input.take n, input.drop n) else none

/-- Lowercase hex digit, as produced by Rust's `{:02x}` formatting. -/
def hexDigit (n : Nat) : Char :=
  if n < 10 then Char.ofNat (48 + n) else Char.ofNat (87 + n)

/-- `format!("{:02x}", b)` for a byte `b`: two lowercase hex digits. -/
def byteHex2 (b : Nat) : String :=
  String.mk [hexDigit (b / 16 % 16), hexDigit (b % 16)]

/-- The Unicode replacement character U+FFFD. -/
def replChar : Char := Char.ofNat 0xFFFD

/-- Is `b` a UTF-8 continuation byte (`0x80..=0xBF`)? -/
def isCont (b : Nat) : Bool := 0x80 ≤ b && b ≤ 0xBF

/-- Valid range of the first continuation byte after lead byte `b` of a
three-byte sequence (excludes overlong forms and surrogates). -/
def cont3Ok (b c : Nat) : Bool :=
  if b = 0xE0 then 0xA0 ≤ c && c ≤ 0xBF
  else if b = 0xED then 0x80 ≤ c && c ≤ 0x9F
  else isCont c

/-- Valid range of the first continuation byte after lead byte `b` of a
four-byte sequence (excludes overlong forms and values above U+10FFFF). -/
def cont4Ok (b c : Nat) : Bool :=
  if b = 0xF0 then 0x90 ≤ c && c ≤ 0xBF
  else if b = 0xF4 then 0x80 ≤ c && c ≤ 0x8F
  else isCont c

/-- UTF-8 decoding with lossy substitution, modelling
`String::from_utf8_lossy`: each maximal invalid subpart is replaced by
U+FFFD and decoding resumes at the offending byte. Total by
construction. -/
def utf8DecodeLossy : List Nat → List Char
  | [] => []
  | b :: rest =>
    if b < 0x80 then Char.ofNat b :: utf8DecodeLossy rest
    else if b < 0xC2 then replChar :: utf8DecodeLossy rest
    else if b < 0xE0 then
      match rest with
      | c1 :: rest1 =>
        if isCont c1 then
          Char.ofNat ((b - 0xC0) * 0x40 + (c1 - 0x80)) :: utf8DecodeLossy rest1
        else replChar :: utf8DecodeLossy (c1 :: rest1)
      | [] => [replChar]
    else if b < 0xF0 then
      match rest with
      | c1 :: rest1 =>
        if cont3Ok b c1 then
          match rest1 with
          | c2 :: rest2 =>
            if isCont c2 then
              Char.ofNat ((b - 0xE0) * 0x1000 + (c1 - 0x80) * 0x40 + (c2 - 0x80))
                :: utf8DecodeLossy rest2
            else replChar :: utf8DecodeLossy (c2 :: rest2)
          | [] => [replChar]
        else replChar :: utf8DecodeLossy (c1 :: rest1)
      | [] => [replChar]
    else if b < 0xF5 then
      match rest with
      | c1 :: rest1 =>
        if cont4Ok b c1 then
          match rest1 with
          | c2 :: rest2 =>
            if isCont c2 then
              match rest2 with
              | c3 :: rest3 =>
                if isCont c3 then
                  Char.ofNat ((b - 0xF0) * 0x40000 + (c1 - 0x80) * 0x1000
                      + (c2 - 0x80) * 0x40 + (c3 - 0x80))
                    :: utf8DecodeLossy rest3
                else replChar :: utf8DecodeLossy (c3 :: rest3)
              | [] => [replChar]
            else replChar :: utf8DecodeLossy (c2 :: rest2)
          | [] => [replChar]
        else replChar :: utf8DecodeLossy (c1 :: rest1)
      | [] => [replChar]
    else replChar :: utf8DecodeLossy rest
termination_by l => l.length
decreasing_by all_goals (simp only [List.length_cons]; omega)

/-- `String::from_utf8_lossy(bytes).to_string()`. -/
def utf8Lossy (bytes : List Nat) : String := ⟨utf8DecodeLossy bytes⟩

/-- The address-type dispatch of `handle_client` (`match address_type`):
`0x01` reads 4 bytes and formats dotted-decimal IPv4; `0x03` reads a
length byte then that many bytes, decoded lossily as UTF-8; `0x04`
reads 16 bytes and formats `[hhhh:...:hhhh]` with `{:02x}{:02x}`
groups; anything else is `UnsupportedAddressType`. Returns the decoded
string and the unconsumed stream. -/
def parseAddr (addressType : Nat) (input : List Nat) :
    Except SocksError (String × List Nat) :=
  if addressType = 1 then
    match input with
    | a :: b :: c :: d :: rest =>
      .ok (Nat.repr a ++ "." ++ Nat.repr b ++ "." ++ Nat.repr c ++ "."
            ++ Nat.repr d, rest)
    | _ => .error (.IoError eofError)
  else if addressType = 3 then
    match input with
    | len :: rest =>
      match readExact len rest with
      | some (domain, rest2) => .ok (utf8Lossy domain, rest2)
      | none => .error (.IoError eofError)
    | [] => .error (.IoError eofError)
  else if addressType = 4 then
    match input with
    | b0 :: b1 :: b2 :: b3 :: b4 :: b5 :: b6 :: b7 ::
      b8 :: b9 :: b10 :: b11 :: b12 :: b13 :: b14 :: b15 :: rest =>
      .ok ("[" ++ String.intercalate ":"
              [byteHex2 b0 ++ byteHex2 b1, byteHex2 b2 ++ byteHex2 b3,
               byteHex2 b4 ++ byteHex2 b5, byteHex2 b6 ++ byteHex2 b7,
               byteHex2 b8 ++ byteHex2 b9, byteHex2 b10 ++ byteHex2 b11,
               byteHex2 b12 ++ byteHex2 b13, byteHex2 b14 ++ byteHex2 b15]
            ++ "]", rest)
    | _ => .error (.IoError eofError)
  else .error .UnsupportedAddressType

/-- The request-reading phase of `handle_client`: the 4-byte header
`[version, command, reserved, address_type]` (bytes 0 and 2 are read
but never used), the address via `parseAddr`, then the 2-byte
big-endian port. Yields `(command, target_addr, port)` and the
unconsumed stream. -/
def parseRequest : List Nat → Except SocksError ((Nat × String × Nat) × List Nat)
  | _version :: command :: _reserved :: addressType :: rest =>
    match parseAddr addressType rest with
    | .error e => .error e
    | .ok (targetAddr, rest2) =>
      match rest2 with
      | p1 :: p2 :: rest3 => .ok ((command, targetAddr, p1 * 256 + p2), rest3)
      | _ => .error (.IoError eofError)
  | _ => .error (.IoError eofError)

/-- `handle_connect`: on a successful outbound connect, write the
success reply (status `0x00`, all-zero bound address, the *requested*
target port big-endian) and spawn the two relay copy threads; on
failure, write the failure reply (status `0x01`) and return the
underlying `io::Error`. `(port >> 8) as u8` / `port as u8` become
`(port >>> 8) % 256` / `port % 256`. -/
def handleConnect (env : NetEnv) (_targetAddr : String) (port : Nat) : SessionOut :=
  match env.connectResult with
  | .ok _ =>
    { out := [5, 0x00, 0x00, 0x01, 0, 0, 0, 0, (port >>> 8) % 256, port % 256]
      relays := 2
      res := .ok () }
  | .error e =>
    { out := [5, 0x01, 0x00, 0x01, 0, 0, 0, 0, 0, 0]
      relays := 0
      res := .error (.IoError e) }

/-- The `response` array built in `handle_bind` from the listener's
local address: status `0x00`, zeroed bound address, listener port
big-endian. -/
def bindResponse (bindPort : Nat) : List Nat :=
  [5, 0x00, 0x00, 0x01, 0, 0, 0, 0, (bindPort >>> 8) % 256, bindPort % 256]

/-- `handle_bind`: write the first reply; if `accept()` succeeds, write
the *same* bytes again as the second reply; in either case return
`Ok(())` with no relay spawned. -/
def handleBind (env : NetEnv) (_targetAddr : String) (_port : Nat) : SessionOut :=
  let response := bindResponse env.bindPort
  if env.acceptOk then
    { out := response ++ response, relays := 0, res := .ok () }
  else
    { out := response, relays := 0, res := .ok () }

/-- `handle_udp`: bind a UDP socket and write one reply carrying its
port; no datagram relay exists. -/
def handleUdp (env : NetEnv) (_targetAddr : String) (_port : Nat) : SessionOut :=
  { out := [5, 0x00, 0x00, 0x01, 0, 0, 0, 0,
            (env.udpPort >>> 8) % 256, env.udpPort % 256]
    relays := 0
    res := .ok () }

/-- The post-handshake part of `handle_client`: parse the request, then
dispatch on the command byte (`0x01` CONNECT, `0x02` BIND, `0x03` UDP
ASSOCIATE, anything else `UnsupportedCommand`). -/
def processRequest (env : NetEnv) (input : List Nat) : SessionOut :=
  match parseRequest input with
  | .error e => { out := [], relays := 0, res := .error e }
  | .ok ((command, targetAddr, port), _rest) =>
    if command = 1 then handleConnect env targetAddr port
    else if command = 2 then handleBind env targetAddr port
    else if command = 3 then handleUdp env targetAddr port
    else { out := [], relays := 0, res := .error .UnsupportedCommand }

/-- `handle_client`: read the 2-byte `[version, nmethods]` header, fail
with `UnsupportedVersion` when `version != 5`, read the `nmethods`
method bytes; if `0x00` is absent write `[5, 0xFF]` and fail with
`UnsupportedAuthMethod`, otherwise write `[5, 0x00]` and continue with
the request phase. -/
def handleClient (env : NetEnv) (input : List Nat) : SessionOut :=
  match input with
  | version :: nmethods :: rest =>
    if version ≠ 5 then
      { out := [], relays := 0, res := .error .UnsupportedVersion }
    else
      match readExact nmethods rest with
      | none => { out := [], relays := 0, res := .error (.IoError eofError) }
      | some (methods, rest2) =>
        if !(methods.contains 0) then
          { out := [5, 0xFF], relays := 0, res := .error .UnsupportedAuthMethod }
        else
          let r := processRequest env rest2
          { out := [5, 0x00] ++ r.out, relays := r.relays, res := r.res }
  | _ => { out := [], relays := 0, res := .error (.IoError eofError) }

/-- `read_exact` on a stream that starts with exactly the requested
bytes consumes them and leaves the rest. -/
theorem readExact_append (xs ys : List Nat) :
    readExact xs.length (xs ++ ys) = some (xs, ys) := by
  simp [readExact, List.take_left, List.drop_left]

/-- A generic environment: outbound connect fails with code 0, no peer
is accepted on BIND. -/
def env0 : NetEnv :=
  { connectResult := .error 0, connectLocalPort := 0, bindPort := 4096,
    acceptOk := false, udpPort := 0 }

/-- Environment whose outbound connect succeeds; the outbound socket's
local port (12345) differs from any requested target port used below. -/
def envOk : NetEnv :=
  { connectResult := .ok (), connectLocalPort := 12345, bindPort := 0,
    acceptOk := false, udpPort := 0 }

/-- Environment whose outbound connect fails with error code 7. -/
def envFail : NetEnv :=
  { connectResult := .error 7, connectLocalPort := 0, bindPort := 0,
    acceptOk := false, udpPort := 0 }

/-- Environment whose BIND listener accepts a peer connection. -/
def envAccept : NetEnv :=
  { connectResult := .error 0, connectLocalPort := 0, bindPort := 4660,
    acceptOk := true, udpPort := 0 }

/-- The 10-byte reply wire layout:
`[5][status][0][1][boundAddr(4)][boundPort big-endian(2)]`. -/
def IsReply (bs : List Nat) : Prop :=
  bs.length = 10 ∧ ∃ status a0 a1 a2 a3 boundPort,
    boundPort < 65536 ∧
    bs = [5, status, 0, 1, a0, a1, a2, a3, boundPort / 256, boundPort % 256]

/-- Every reply the handlers build has the fixed layout. -/
theorem isReply_status_port (s p : Nat) :
    IsReply [5, s, 0, 1, 0, 0, 0, 0, (p >>> 8) % 256, p % 256] := by
  have h1 : (p >>> 8) % 256 < 256 := Nat.mod_lt _ (by omega)
  have h2 : p % 256 < 256 := Nat.mod_lt _ (by omega)
  refine ⟨rfl, s, 0, 0, 0, 0, (p >>> 8) % 256 * 256 + p % 256, by omega, ?_⟩
  have hd : ((p >>> 8) % 256 * 256 + p % 256) / 256 = (p >>> 8) % 256 := by omega
  have hm : ((p >>> 8) % 256 * 256 + p % 256) % 256 = p % 256 := by omega
  rw [hd, hm]

/-- C1 (counterexample): the failure reply written when the outbound
connect fails is `[5,1,0,1,0,0,0,0,0,0]`; it is not the case that every
byte other than the status byte is zero — byte 0 (version) is 5 and
byte 3 (address type) is 1. -/
theorem connect_failure_reply_nonzero_bytes :
    (handleConnect envFail "127.0.0.1" 80).out = [5, 1, 0, 1, 0, 0, 0, 0, 0, 0]
  ∧ ¬ (∀ i, i < 10 → i ≠ 1 →
        ((handleConnect envFail "127.0.0.1" 80).out.getD i 0) = 0) := by
  constructor
  · rfl
  · intro h
    exact absurd (h 0 (by omega) (by omega)) (by decide)

/-- C1 (amended): if the outbound connect for a CONNECT request fails
with transport error `e`, the proxy writes the failure reply
`[5,0x01,0x00,0x01,0,0,0,0,0,0]` (status `0x01`; every byte other than
the fixed version byte 5 and address-type byte 1 is zero), spawns no
relay task, and returns the underlying transport error. -/
theorem connect_failure_reply (env : NetEnv) (addr : String) (port : Nat)
    (e : Nat) (hc : env.connectResult = .error e) :
    handleConnect env addr port =
      { out := [5, 1, 0, 1, 0, 0, 0, 0, 0, 0], relays := 0,
        res := .error (.IoError e) } := by
  simp [handleConnect, hc]

/-- C1 (witness): the amended statement at a concrete failing connect. -/
theorem connect_failure_reply_witness :
    handleConnect envFail "127.0.0.1" 80 =
      { out := [5, 1, 0, 1, 0, 0, 0, 0, 0, 0], relays := 0,
        res := .error (.IoError 7) } :=
  connect_failure_reply envFail "127.0.0.1" 80 7 rfl

/-- C2: for a version-5 handshake carrying `nmethods` method bytes, if
the method list contains `0x00` the negotiator writes exactly `[5,0]`
and the session continues with the request phase; otherwise (including
the empty list) it writes exactly `[5,0xFF]` and the session terminates
with `UnsupportedAuthMethod`. -/
theorem auth_method_negotiation (env : NetEnv) (n : Nat)
    (methods rest : List Nat) (hlen : methods.length = n) :
    (methods.contains 0 = true →
      handleClient env (5 :: n :: (methods ++ rest)) =
        { out := [5, 0] ++ (processRequest env rest).out,
          relays := (processRequest env rest).relays,
          res := (processRequest env rest).res })
  ∧ (methods.contains 0 = false →
      handleClient env (5 :: n :: (methods ++ rest)) =
        { out := [5, 0xFF], relays := 0,
          res := .error .UnsupportedAuthMethod }) := by
  subst hlen
  constructor
  · intro hm
    have hm2 : 0 ∈ methods := by simpa using hm
    simp [handleClient, readExact_append, hm2]
  · intro hm
    have hm2 : 0 ∉ methods := by simpa using hm
    simp [handleClient, readExact_append, hm2]

/-- C2 (witness): handshake `[5,1,0]` is accepted with reply `[5,0]`
and proceeds; handshake `[5,0]` (empty method list) is refused with
reply `[5,0xFF]` and `UnsupportedAuthMethod`. -/
theorem auth_method_negotiation_witness :
    handleClient env0 [5, 1, 0] =
      { out := [5, 0] ++ (processRequest env0 []).out,
        relays := (processRequest env0 []).relays,
        res := (processRequest env0 []).res }
  ∧ handleClient env0 [5, 0] =
      { out := [5, 0xFF], relays := 0,
        res := .error .UnsupportedAuthMethod } :=
  ⟨(auth_method_negotiation env0 1 [0] [] rfl).1 rfl,
   (auth_method_negotiation env0 0 [] [] rfl).2 rfl⟩

/-- C3: every Reply the system writes — the CONNECT success and failure
replies, both BIND replies (the same `response` bytes written once or
twice), and the UDP ASSOCIATE reply — is exactly 10 bytes laid out
`[5][status][0][1][boundAddr 4 bytes][boundPort 2 bytes big-endian]`:
version always 5, reserved always 0, address type always 1. -/
theorem reply_wire_layout (env : NetEnv) (addr : String) (port : Nat) :
    IsReply (handleConnect env addr port).out
  ∧ IsReply (bindResponse env.bindPort)
  ∧ ((handleBind env addr port).out
        = bindResponse env.bindPort ++ bindResponse env.bindPort
      ∨ (handleBind env addr port).out = bindResponse env.bindPort)
  ∧ IsReply (handleUdp env addr port).out := by
  refine ⟨?_, ?_, ?_, ?_⟩
  · cases hc : env.connectResult with
    | ok u =>
      simp only [handleConnect, hc]
      exact isReply_status_port 0 port
    | error e =>
      simp only [handleConnect, hc]
      simpa using isReply_status_port 1 0
  · exact isReply_status_port 0 env.bindPort
  · by_cases ha : env.acceptOk = true
    · left
      simp [handleBind, ha]
    · right
      simp [handleBind, ha]
  · exact isReply_status_port 0 env.udpPort

/-- C4: when the outbound connect succeeds, the success reply has
status `0x00`, an all-zero bound address, and bound port equal to the
big-endian encoding of the port the client requested for the target
(the environment's `connectLocalPort` — the outbound socket's local
port — is never consulted). -/
theorem connect_success_reply (env : NetEnv) (addr : String) (port : Nat)
    (hc : env.connectResult = .ok ()) (hp : port < 65536) :
    handleConnect env addr port =
      { out := [5, 0, 0, 1, 0, 0, 0, 0, port / 256, port % 256],
        relays := 2, res := .ok () } := by
  have hs : port >>> 8 = port / 256 := by
    rw [Nat.shiftRight_eq_div_pow]
  simp [handleConnect, hc, hs, Nat.mod_eq_of_lt (by omega : port / 256 < 256)]

/-- C4 (witness): a successful CONNECT to port 80 in an environment
whose outbound socket got local port 12345 replies
`[5,0,0,1,0,0,0,0,0,80]` — the requested port, not the local one. -/
theorem connect_success_reply_witness :
    handleConnect envOk "93.184.216.34" 80 =
      { out := [5, 0, 0, 1, 0, 0, 0, 0, 0, 80], relays := 2,
        res := .ok () } := by
  have h := connect_success_reply envOk "93.184.216.34" 80 rfl (by omega)
  simpa using h

/-- C5: on a handshake whose first byte is not 5 the session terminates
with `UnsupportedVersion` and writes no bytes at all to the client. -/
theorem version_mismatch_silent (env : NetEnv) (v n : Nat) (rest : List Nat)
    (hv : v ≠ 5) :
    handleClient env (v :: n :: rest) =
      { out := [], relays := 0, res := .error .UnsupportedVersion } := by
  simp [handleClient, hv]

/-- C5 (witness): a SOCKS4-style first byte 4 gets no reply. -/
theorem version_mismatch_silent_witness :
    handleClient env0 [4, 1, 0] =
      { out := [], relays := 0, res := .error .UnsupportedVersion } :=
  version_mismatch_silent env0 4 1 [0] (by omega)

/-- C6: the address codec decodes IPv4 bytes `[127,0,0,1]` to
`"127.0.0.1"`, IPv6 bytes that are all zero except a final 1 to the
bracketed, uncompressed `"[0000:0000:0000:0000:0000:0000:0000:0001]"`,
and the correctly length-prefixed domain `"example.com"` to exactly
that string. -/
theorem address_codec_examples :
    parseAddr 1 [127, 0, 0, 1] = .ok ("127.0.0.1", [])
  ∧ parseAddr 4 [0, 0, 0, 0, 0, 0, 0, 0, 0, 0, 0, 0, 0, 0, 0, 1]
      = .ok ("[0000:0000:0000:0000:0000:0000:0000:0001]", [])
  ∧ parseAddr 3 [11, 101, 120, 97, 109, 112, 108, 101, 46, 99, 111, 109]
      = .ok ("example.com", []) := by
  refine ⟨by decide, by decide, ?_⟩
  have hchars : utf8DecodeLossy [101, 120, 97, 109, 112, 108, 101, 46, 99, 111, 109]
      = ['e', 'x', 'a', 'm', 'p', 'l', 'e', '.', 'c', 'o', 'm'] := by
    simp [utf8DecodeLossy]
  simp [parseAddr, readExact, utf8Lossy, hchars]

/-- C7: a parsed request whose command byte is outside `{1,2,3}`
terminates the session with `UnsupportedCommand`, and a request header
whose address-type byte is outside `{1,3,4}` terminates it with
`UnsupportedAddressType`; in both cases the request phase writes no
reply bytes at all. -/
theorem unsupported_command_and_address_type (env : NetEnv) :
    (∀ (input : List Nat) (c : Nat) (a : String) (p : Nat) (r : List Nat),
      parseRequest input = .ok ((c, a, p), r) → c ≠ 1 → c ≠ 2 → c ≠ 3 →
      processRequest env input =
        { out := [], relays := 0, res := .error .UnsupportedCommand })
  ∧ (∀ (r0 c rsv atyp : Nat) (rest : List Nat),
      atyp ≠ 1 → atyp ≠ 3 → atyp ≠ 4 →
      processRequest env (r0 :: c :: rsv :: atyp :: rest) =
        { out := [], relays := 0, res := .error .UnsupportedAddressType }) := by
  constructor
  · intro input c a p r hpr h1 h2 h3
    simp [processRequest, hpr, h1, h2, h3]
  · intro r0 c rsv atyp rest h1 h3 h4
    have hpa : parseAddr atyp rest = .error .UnsupportedAddressType := by
      simp [parseAddr, h1, h3, h4]
    simp [processRequest, parseRequest, hpa]

/-- C7 (witness): command byte 5 on a well-formed IPv4 request yields
`UnsupportedCommand`; address-type byte 2 yields
`UnsupportedAddressType`; neither writes anything. -/
theorem unsupported_command_and_address_type_witness :
    processRequest env0 [0, 5, 0, 1, 127, 0, 0, 1, 0, 80] =
      { out := [], relays := 0, res := .error .UnsupportedCommand }
  ∧ processRequest env0 [0, 1, 0, 2, 0, 80] =
      { out := [], relays := 0, res := .error .UnsupportedAddressType } :=
  ⟨(unsupported_command_and_address_type env0).1
      [0, 5, 0, 1, 127, 0, 0, 1, 0, 80] 5 "127.0.0.1" 80 [] (by decide)
      (by omega) (by omega) (by omega),
   (unsupported_command_and_address_type env0).2 0 1 0 2 [0, 80]
      (by omega) (by omega) (by omega)⟩

/-- C8: domain decoding is total for the bytes it reads: for every
length byte `L` and every `L` following bytes, the `0x03` branch of the
address codec succeeds, returning the lossy UTF-8 decoding (invalid
sequences become replacement characters, never an error) and leaving
the remaining stream untouched. -/
theorem domain_decode_total (L : Nat) (bytes rest : List Nat)
    (hlen : bytes.length = L) :
    parseAddr 3 (L :: (bytes ++ rest)) = .ok (utf8Lossy bytes, rest) := by
  subst hlen
  simp [parseAddr, readExact_append]

/-- C8 (witness): the invalid UTF-8 byte `0xFF` followed by `'a'`
decodes without error. -/
theorem domain_decode_total_witness :
    parseAddr 3 [2, 255, 97] = .ok (utf8Lossy [255, 97], []) :=
  domain_decode_total 2 [255, 97] [] rfl

/-- C9: when the BIND listener accepts a peer, the handler writes the
same `response` bytes a second time (the accepted peer's address is not
substituted), spawns no relay task, and returns `Ok`. -/
theorem bind_second_reply_identical (env : NetEnv) (addr : String)
    (port : Nat) (ha : env.acceptOk = true) :
    handleBind env addr port =
      { out := bindResponse env.bindPort ++ bindResponse env.bindPort,
        relays := 0, res := .ok () } := by
  simp [handleBind, ha]

/-- C9 (witness): the accepting environment writes its reply twice. -/
theorem bind_second_reply_identical_witness :
    handleBind envAccept "example.com" 80 =
      { out := bindResponse envAccept.bindPort ++ bindResponse envAccept.bindPort,
        relays := 0, res := .ok () } :=
  bind_second_reply_identical envAccept "example.com" 80 rfl

/-- C10: the version byte (offset 0) and reserved byte (offset 2) of
the 4-byte request header are read but never used: two sessions whose
input streams differ only in those two bytes parse to the same request
and produce identical observable behaviour (same bytes written, same
relay tasks, same result). -/
theorem request_header_bytes_ignored (env : NetEnv) (n : Nat)
    (methods : List Nat) (r0 r0' cmd rsv rsv' atyp : Nat) (rest : List Nat)
    (hlen : methods.length = n) :
    parseRequest (r0 :: cmd :: rsv :: atyp :: rest)
      = parseRequest (r0' :: cmd :: rsv' :: atyp :: rest)
  ∧ handleClient env (5 :: n :: (methods ++ (r0 :: cmd :: rsv :: atyp :: rest)))
      = handleClient env (5 :: n :: (methods ++ (r0' :: cmd :: rsv' :: atyp :: rest))) := by
  subst hlen
  have hpr : processRequest env (r0 :: cmd :: rsv :: atyp :: rest)
      = processRequest env (r0' :: cmd :: rsv' :: atyp :: rest) := rfl
  exact ⟨rfl, by simp [handleClient, readExact_append, hpr]⟩

/-- C10 (witness): flipping the request's version byte 0 → 9 and
reserved byte 0 → 7 changes nothing observable. -/
theorem request_header_bytes_ignored_witness :
    parseRequest [0, 1, 0, 1, 127, 0, 0, 1, 0, 80]
      = parseRequest [9, 1, 7, 1, 127, 0, 0, 1, 0, 80]
  ∧ handleClient env0 [5, 1, 0, 0, 1, 0, 1, 127, 0, 0, 1, 0, 80]
      = handleClient env0 [5, 1, 0, 9, 1, 7, 1, 127, 0, 0, 1, 0, 80] :=
  request_header_bytes_ignored env0 1 [0] 0 9 1 0 7 1 [127, 0, 0, 1, 0, 80] rfl
